import Mathlib

/-!
Verification of the CSS-selector builder in `src/05-objects-tasks.js` of
RoierS/core-js-101.

The source file contains two implementations of the builder:
* class `Selector` (lines 118-196) with its facade `cssSelectorBuilder`
  (lines 198-227), and
* class `CssSelectorBuilder` (lines 403-488) with its facade (lines 490-518).

Both are embedded here, faithfully to the JavaScript:
* JS string truthiness is `≠ ""` (the only falsy string is the empty one);
* a JS method that mutates `this` and may `throw` becomes a function
  returning a result record holding an optional error message and the
  state of the receiver after the call (in `Selector`, some mutations
  happen *before* the order check throws, so the post-throw state matters);
* `Array.prototype.push` is append at the end of a `List String`;
* `Array.prototype.join('')` is `strJoin` below;
* chained calls stop at the first thrown error, like a JS expression.
-/

/-- JS `array.join('')`: concatenation of the list of strings in order. -/
def strJoin : List String → String
  | [] => ""
  | a :: l => a ++ strJoin l

/-- State of a `Selector` instance (source lines 118-127): the constructor
initialises every string field to `''`, both arrays to `[]` and `order` to 0. -/
structure Selector where
  elementValue : String
  idValue : String
  classValues : List String
  attrValue : String
  pseudoClassValues : List String
  pseudoElementValue : String
  order : Nat
deriving DecidableEq, Repr

/-- `new Selector()`. -/
def Selector.new : Selector :=
  ⟨"", "", [], "", [], "", 0⟩

/-- Result of a `Selector` method call: the error thrown (if any) and the
state of the receiver after the call returns or throws. -/
structure SelRes where
  err : Option String
  state : Selector
deriving DecidableEq, Repr

/-- Message thrown by `Selector.element` and `Selector.id` (lines 131, 140). -/
def selectorDupMsg : String :=
  "Element, id and pseudo-element should not occur more then one time inside the selector"

/-- Message thrown by `Selector.pseudoElement` (line 167; it is spelled
differently from the one in `element`/`id`). -/
def selectorDupMsgPE : String :=
  "Element, id, and pseudo-element should not occur more than once inside the selector"

/-- Message thrown by both `validateOrder` methods (lines 178, 485). -/
def orderMsg : String :=
  "Selector parts should be arranged in the following order: element, id, class, attribute, pseudo-class, pseudo-element"

/-- `Selector.validateOrder(order)` (lines 174-180): if `this.order <= order`
set `this.order = order`, else throw. -/
def Selector.validateOrder (s : Selector) (ord : Nat) : SelRes :=
  if s.order ≤ ord then ⟨none, { s with order := ord }⟩
  else ⟨some orderMsg, s⟩

/-- `Selector.element(value)` (lines 129-136): throw if `this.elementValue`
is truthy; otherwise assign it and then validate order 1. -/
def Selector.element (s : Selector) (v : String) : SelRes :=
  if s.elementValue ≠ "" then ⟨some selectorDupMsg, s⟩
  else Selector.validateOrder { s with elementValue := v } 1

/-- `Selector.id(value)` (lines 138-145). -/
def Selector.id (s : Selector) (v : String) : SelRes :=
  if s.idValue ≠ "" then ⟨some selectorDupMsg, s⟩
  else Selector.validateOrder { s with idValue := "#" ++ v } 2

/-- `Selector.class(value)` (lines 147-151; `class` is a Lean keyword, so the
method is named `cls` here): push `.value`, then validate order 3.  Note the
push happens before the order check. -/
def Selector.cls (s : Selector) (v : String) : SelRes :=
  Selector.validateOrder { s with classValues := s.classValues ++ ["." ++ v] } 3

/-- `Selector.attr(value)` (lines 153-157): overwrite `this.attrValue` with
`[value]`, then validate order 4. -/
def Selector.attr (s : Selector) (v : String) : SelRes :=
  Selector.validateOrder { s with attrValue := "[" ++ v ++ "]" } 4

/-- `Selector.pseudoClass(value)` (lines 159-163). -/
def Selector.pseudoClass (s : Selector) (v : String) : SelRes :=
  Selector.validateOrder { s with pseudoClassValues := s.pseudoClassValues ++ [":" ++ v] } 5

/-- `Selector.pseudoElement(value)` (lines 165-172). -/
def Selector.pseudoElement (s : Selector) (v : String) : SelRes :=
  if s.pseudoElementValue ≠ "" then ⟨some selectorDupMsgPE, s⟩
  else Selector.validateOrder { s with pseudoElementValue := "::" ++ v } 6

/-- `Selector.stringify()` (lines 187-195): concatenate the six fields in
declaration order.  The method performs no mutation (it does not clear any
field), so it is a pure function of the state. -/
def Selector.stringify (s : Selector) : String :=
  s.elementValue ++ s.idValue ++ strJoin s.classValues ++ s.attrValue
    ++ strJoin s.pseudoClassValues ++ s.pseudoElementValue

/-- `Selector.combine(selector1, combinator, selector2)` (lines 182-185):
assign to `this.elementValue` the two operands' stringifications around the
combinator and return `this`; it never throws and performs no order check. -/
def Selector.combine (s : Selector) (s1 : Selector) (comb : String) (s2 : Selector) : Selector :=
  { s with elementValue := s1.stringify ++ " " ++ comb ++ " " ++ s2.stringify }

/-- One chainable fragment-appending call on a builder (the six appending
methods; `combine` is separate because its arguments are builders). -/
inductive SCall where
  | element (v : String)
  | id (v : String)
  | cls (v : String)
  | attr (v : String)
  | pseudoClass (v : String)
  | pseudoElement (v : String)
deriving DecidableEq, Repr

/-- Dispatch one call to the corresponding `Selector` method. -/
def Selector.step (s : Selector) : SCall → SelRes
  | .element v => s.element v
  | .id v => s.id v
  | .cls v => s.cls v
  | .attr v => s.attr v
  | .pseudoClass v => s.pseudoClass v
  | .pseudoElement v => s.pseudoElement v

/-- Run a chain of method calls on a `Selector`, stopping at the first
thrown error (as a chained JS expression would). -/
def runCalls : Selector → List SCall → SelRes
  | s, [] => ⟨none, s⟩
  | s, c :: cs =>
    match Selector.step s c with
    | ⟨none, s1⟩ => runCalls s1 cs
    | ⟨some e, s1⟩ => ⟨some e, s1⟩

namespace cssSelectorBuilder

/-- Facade `cssSelectorBuilder.element` (lines 199-201): `new Selector().element(value)`. -/
def element (v : String) : SelRes := Selector.new.element v

/-- Facade `cssSelectorBuilder.id` (lines 203-205). -/
def id (v : String) : SelRes := Selector.new.id v

/-- Facade `cssSelectorBuilder.class` (lines 207-209). -/
def cls (v : String) : SelRes := Selector.new.cls v

/-- Facade `cssSelectorBuilder.attr` (lines 211-213). -/
def attr (v : String) : SelRes := Selector.new.attr v

/-- Facade `cssSelectorBuilder.pseudoClass` (lines 215-217). -/
def pseudoClass (v : String) : SelRes := Selector.new.pseudoClass v

/-- Facade `cssSelectorBuilder.pseudoElement` (lines 219-221). -/
def pseudoElement (v : String) : SelRes := Selector.new.pseudoElement v

/-- Facade `cssSelectorBuilder.combine` (lines 223-226):
`new Selector().combine(selector1, combinator, selector2)`. -/
def combine (s1 : Selector) (comb : String) (s2 : Selector) : Selector :=
  Selector.new.combine s1 comb s2

end cssSelectorBuilder

/-- State of a `CssSelectorBuilder` instance (lines 403-409): the list of
already-rendered fragment strings.  (The `elementCount`/`idCount`/
`pseudoElementCount` fields are commented out in the constructor; the
increments in `element`/`id`/`pseudoElement` therefore produce `NaN`, and
no code ever reads them — `validateOrder` recomputes its own counts — so
they are not part of the observable state.) -/
structure CssB where
  selectors : List String
deriving DecidableEq, Repr

/-- `new CssSelectorBuilder()`. -/
def CssB.new : CssB := ⟨[]⟩

/-- Result of a `CssSelectorBuilder` method call. -/
structure CssRes where
  err : Option String
  state : CssB
deriving DecidableEq, Repr

/-- Message thrown by `CssSelectorBuilder.validateOrder` on a duplicate
count (line 478). -/
def cssDupMsg : String :=
  "Element, id and pseudo-element should not occur more than one time inside the selector"

/-- `pre` is a prefix of the character list `l`. -/
def charsStartWith : List Char → List Char → Bool
  | [], _ => true
  | _ :: _, [] => false
  | a :: pre, b :: l => a == b && charsStartWith pre l

/-- JS `s.startsWith(pre)`: the string `s` begins with the string `pre`.
(Defined by structural recursion on the character data so that it can be
evaluated; Lean's own `String.startsWith` has the same meaning but is
compiled by well-founded recursion.) -/
def jsStartsWith (s pre : String) : Bool :=
  charsStartWith pre.data s.data

/-- The `forEach` classification loop of `CssSelectorBuilder.validateOrder`
(lines 463-475): count each stored fragment as id if it starts with `#`,
else as pseudo-element if it starts with `::`, else as element.
Returns `(elementCount, idCount, pseudoElementCount)`. -/
def CssB.countsOf (ss : List String) : Nat × Nat × Nat :=
  ss.foldl
    (fun acc sel =>
      if jsStartsWith sel "#" then (acc.1, acc.2.1 + 1, acc.2.2)
      else if jsStartsWith sel "::" then (acc.1, acc.2.1, acc.2.2 + 1)
      else (acc.1 + 1, acc.2.1, acc.2.2))
    (0, 0, 0)

/-- `CssSelectorBuilder.validateOrder(prio)` (lines 461-487).  The JS guard
`lastSelector && lastSelector.startsWith(...)` only skips the check when the
array is empty or the last fragment is `''`; an empty string starts with
neither `#` nor `::`, so modelling the truthiness test by `startsWith` alone
is exact. -/
def CssB.validateOrder (s : CssB) (prio : Nat) : Option String :=
  let c := CssB.countsOf s.selectors
  if 1 < c.1 ∨ 1 < c.2.1 ∨ 1 < c.2.2 then some cssDupMsg
  else
    match s.selectors.getLast? with
    | none => none
    | some lastSelector =>
      if (jsStartsWith lastSelector "#" ∧ prio ≠ 2)
          ∨ (jsStartsWith lastSelector "::" ∧ prio ≠ 6) then some orderMsg
      else none

/-- `CssSelectorBuilder.element(value)` (lines 411-416): validate order 1
first, then push the bare value.  (On failure nothing is pushed.) -/
def CssB.element (s : CssB) (v : String) : CssRes :=
  match s.validateOrder 1 with
  | some e => ⟨some e, s⟩
  | none => ⟨none, ⟨s.selectors ++ [v]⟩⟩

/-- `CssSelectorBuilder.id(value)` (lines 418-423). -/
def CssB.id (s : CssB) (v : String) : CssRes :=
  match s.validateOrder 2 with
  | some e => ⟨some e, s⟩
  | none => ⟨none, ⟨s.selectors ++ ["#" ++ v]⟩⟩

/-- `CssSelectorBuilder.class(value)` (lines 425-429). -/
def CssB.cls (s : CssB) (v : String) : CssRes :=
  match s.validateOrder 3 with
  | some e => ⟨some e, s⟩
  | none => ⟨none, ⟨s.selectors ++ ["." ++ v]⟩⟩

/-- `CssSelectorBuilder.attr(value)` (lines 431-435). -/
def CssB.attr (s : CssB) (v : String) : CssRes :=
  match s.validateOrder 4 with
  | some e => ⟨some e, s⟩
  | none => ⟨none, ⟨s.selectors ++ ["[" ++ v ++ "]"]⟩⟩

/-- `CssSelectorBuilder.pseudoClass(value)` (lines 437-441). -/
def CssB.pseudoClass (s : CssB) (v : String) : CssRes :=
  match s.validateOrder 5 with
  | some e => ⟨some e, s⟩
  | none => ⟨none, ⟨s.selectors ++ [":" ++ v]⟩⟩

/-- `CssSelectorBuilder.pseudoElement(value)` (lines 443-448). -/
def CssB.pseudoElement (s : CssB) (v : String) : CssRes :=
  match s.validateOrder 6 with
  | some e => ⟨some e, s⟩
  | none => ⟨none, ⟨s.selectors ++ ["::" ++ v]⟩⟩

/-- `CssSelectorBuilder.stringify()` (lines 455-459): return the join of the
fragments and clear the array.  The first component is the returned string,
the second the state of the receiver afterwards (the destructive part). -/
def CssB.stringify (s : CssB) : String × CssB :=
  (strJoin s.selectors, ⟨[]⟩)

/-- `CssSelectorBuilder.combine(selector1, combinator, selector2)`
(lines 450-453): push the operands' stringifications around the combinator;
no order check, never throws.  (In JS the operands are cleared by their own
`stringify`; only the strings they return reach the new state.) -/
def CssB.combine (s : CssB) (s1 : CssB) (comb : String) (s2 : CssB) : CssB :=
  ⟨s.selectors ++ [(s1.stringify).1 ++ " " ++ comb ++ " " ++ (s2.stringify).1]⟩

/-- Dispatch one call to the corresponding `CssSelectorBuilder` method. -/
def CssB.step (s : CssB) : SCall → CssRes
  | .element v => s.element v
  | .id v => s.id v
  | .cls v => s.cls v
  | .attr v => s.attr v
  | .pseudoClass v => s.pseudoClass v
  | .pseudoElement v => s.pseudoElement v

/-- Run a chain of method calls on a `CssSelectorBuilder`, stopping at the
first thrown error. -/
def runCallsB : CssB → List SCall → CssRes
  | s, [] => ⟨none, s⟩
  | s, c :: cs =>
    match CssB.step s c with
    | ⟨none, s1⟩ => runCallsB s1 cs
    | ⟨some e, s1⟩ => ⟨some e, s1⟩

namespace cssSelectorBuilderB

/-- Facade `cssSelectorBuilder.element` of the second implementation
(lines 491-493): `new CssSelectorBuilder().element(value)`. -/
def element (v : String) : CssRes := CssB.new.element v

/-- Facade `cssSelectorBuilder.id` (lines 495-497). -/
def id (v : String) : CssRes := CssB.new.id v

/-- Facade `cssSelectorBuilder.class` (lines 499-501). -/
def cls (v : String) : CssRes := CssB.new.cls v

/-- Facade `cssSelectorBuilder.attr` (lines 503-505). -/
def attr (v : String) : CssRes := CssB.new.attr v

/-- Facade `cssSelectorBuilder.pseudoClass` (lines 507-509). -/
def pseudoClass (v : String) : CssRes := CssB.new.pseudoClass v

/-- Facade `cssSelectorBuilder.pseudoElement` (lines 511-513). -/
def pseudoElement (v : String) : CssRes := CssB.new.pseudoElement v

/-- Facade `cssSelectorBuilder.combine` (lines 515-517). -/
def combine (s1 : CssB) (comb : String) (s2 : CssB) : CssB :=
  CssB.new.combine s1 comb s2

end cssSelectorBuilderB

/-! ## Ranks, fragments and call-sequence validity

These definitions transcribe the canonical rank table of the spec
(element=1, id=2, class=3, attribute=4, pseudo-class=5, pseudo-element=6)
and the fragment rendering with its prefix symbols, which coincide with the
strings the code stores (`#`+id, `.`+class, `[`+attr+`]`, `:`+pseudoClass,
`::`+pseudoElement, bare element). -/

/-- Canonical rank of a call. -/
def SCall.rank : SCall → Nat
  | .element _ => 1
  | .id _ => 2
  | .cls _ => 3
  | .attr _ => 4
  | .pseudoClass _ => 5
  | .pseudoElement _ => 6

/-- The rendered fragment of a call, with its prefix symbol. -/
def SCall.fragment : SCall → String
  | .element v => v
  | .id v => "#" ++ v
  | .cls v => "." ++ v
  | .attr v => "[" ++ v ++ "]"
  | .pseudoClass v => ":" ++ v
  | .pseudoElement v => "::" ++ v

/-- Is the call an `element` call? -/
def SCall.isElement : SCall → Bool
  | .element _ => true
  | _ => false

/-- Is the call an `id` call? -/
def SCall.isId : SCall → Bool
  | .id _ => true
  | _ => false

/-- Is the call an `attr` call? -/
def SCall.isAttr : SCall → Bool
  | .attr _ => true
  | _ => false

/-- Is the call a `pseudoElement` call? -/
def SCall.isPseudoElement : SCall → Bool
  | .pseudoElement _ => true
  | _ => false

/-- Number of calls in the list satisfying `p`. -/
def countC (p : SCall → Bool) : List SCall → Nat
  | [] => 0
  | c :: cs => (if p c then 1 else 0) + countC p cs

/-- `ranksFrom o rs` holds when `o ≤ r₁ ≤ r₂ ≤ …` for the list `rs`. -/
def ranksFrom : Nat → List Nat → Bool
  | _, [] => true
  | o, r :: rs => decide (o ≤ r) && ranksFrom r rs

/-- The call sequences the claim quantifies over: ranks non-decreasing,
`element`, `id` and `pseudoElement` each used at most once. -/
abbrev ValidSeqC1 (cs : List SCall) : Prop :=
  ranksFrom 0 (cs.map SCall.rank) = true ∧
  countC SCall.isElement cs ≤ 1 ∧
  countC SCall.isId cs ≤ 1 ∧
  countC SCall.isPseudoElement cs ≤ 1

/-- 1 when the stored string field is truthy (nonempty), 0 otherwise. -/
def occ (x : String) : Nat := if x = "" then 0 else 1

theorem occ_le_one (x : String) : occ x ≤ 1 := by
  unfold occ; split <;> omega

theorem occ_eq_zero {x : String} (h : occ x = 0) : x = "" := by
  by_cases hx : x = ""
  · exact hx
  · simp [occ, hx] at h

/-- Invariant of states reached by order-respecting call chains: every field
whose rank exceeds the current `order` is still at its initial value. -/
def SelInv (s : Selector) : Prop :=
  (s.order < 2 → s.idValue = "") ∧
  (s.order < 3 → s.classValues = []) ∧
  (s.order < 4 → s.attrValue = "") ∧
  (s.order < 5 → s.pseudoClassValues = []) ∧
  (s.order < 6 → s.pseudoElementValue = "")

theorem strJoin_append (xs ys : List String) :
    strJoin (xs ++ ys) = strJoin xs ++ strJoin ys := by
  induction xs with
  | nil => simp [strJoin, String.empty_append]
  | cons a xs ih => simp [strJoin, ih, String.append_assoc]

/-- Main run lemma: from any state satisfying the invariant, a chain whose
ranks are non-decreasing starting at the state's `order`, and whose calls
respect the remaining budget of the at-most-once kinds (`element`, `id`,
`attr`, `pseudoElement`), runs without error and appends exactly the
rendered fragments, in order, to the stringification. -/
theorem occ_empty : occ "" = 0 := rfl

/-- Main run lemma: from any state satisfying the invariant, a chain whose
ranks are non-decreasing starting at the state's `order`, and whose calls
respect the remaining budget of the at-most-once kinds (`element`, `id`,
`attr`, `pseudoElement`), runs without error and appends exactly the
rendered fragments, in order, to the stringification. -/
theorem runCalls_concat : ∀ (cs : List SCall) (s : Selector),
    SelInv s →
    ranksFrom s.order (cs.map SCall.rank) = true →
    countC SCall.isElement cs + occ s.elementValue ≤ 1 →
    countC SCall.isId cs + occ s.idValue ≤ 1 →
    countC SCall.isAttr cs + occ s.attrValue ≤ 1 →
    countC SCall.isPseudoElement cs + occ s.pseudoElementValue ≤ 1 →
    (runCalls s cs).err = none ∧
    (runCalls s cs).state.stringify = s.stringify ++ strJoin (cs.map SCall.fragment) := by
  intro cs
  induction cs with
  | nil =>
    intro s _ _ _ _ _ _
    exact ⟨rfl, by simp [runCalls, strJoin, String.append_empty]⟩
  | cons c cs ih =>
    intro s hInv hrk hE hI hA hP
    obtain ⟨eV, iV, cV, aV, pV, peV, o⟩ := s
    obtain ⟨h2, h3, h4, h5, h6⟩ := hInv
    simp only [Selector.order] at h2 h3 h4 h5 h6
    cases c with
    | element v =>
      simp only [List.map_cons, ranksFrom, SCall.rank, Bool.and_eq_true,
        decide_eq_true_eq] at hrk
      obtain ⟨hord, hrk2⟩ := hrk
      simp [countC, SCall.isElement, SCall.isId, SCall.isAttr,
        SCall.isPseudoElement] at hE hI hA hP
      have heV : eV = "" := occ_eq_zero (by omega)
      have hiV : iV = "" := h2 (by omega)
      have hcV : cV = [] := h3 (by omega)
      have haV : aV = "" := h4 (by omega)
      have hpV : pV = [] := h5 (by omega)
      have hpeV : peV = "" := h6 (by omega)
      subst heV hiV hcV haV hpV hpeV
      have hrun : runCalls ⟨"", "", [], "", [], "", o⟩ (SCall.element v :: cs)
          = runCalls ⟨v, "", [], "", [], "", 1⟩ cs := by
        simp [runCalls, Selector.step, Selector.element, Selector.validateOrder, hord]
      rw [hrun]
      obtain ⟨herr, hstr⟩ := ih ⟨v, "", [], "", [], "", 1⟩
        ⟨fun _ => rfl, fun _ => rfl, fun _ => rfl, fun _ => rfl, fun _ => rfl⟩
        hrk2
        (by show countC SCall.isElement cs + occ v ≤ 1
            have := occ_le_one v; omega)
        (by show countC SCall.isId cs + occ "" ≤ 1
            rw [occ_empty]; omega)
        (by show countC SCall.isAttr cs + occ "" ≤ 1
            rw [occ_empty]; omega)
        (by show countC SCall.isPseudoElement cs + occ "" ≤ 1
            rw [occ_empty]; omega)
      refine ⟨herr, ?_⟩
      rw [hstr]
      simp [Selector.stringify, strJoin, SCall.fragment,
        String.append_empty, String.empty_append, String.append_assoc]
    | id v =>
      simp only [List.map_cons, ranksFrom, SCall.rank, Bool.and_eq_true,
        decide_eq_true_eq] at hrk
      obtain ⟨hord, hrk2⟩ := hrk
      simp [countC, SCall.isElement, SCall.isId, SCall.isAttr,
        SCall.isPseudoElement] at hE hI hA hP
      have hiV : iV = "" := occ_eq_zero (by omega)
      have hcV : cV = [] := h3 (by omega)
      have haV : aV = "" := h4 (by omega)
      have hpV : pV = [] := h5 (by omega)
      have hpeV : peV = "" := h6 (by omega)
      subst hiV hcV haV hpV hpeV
      have hrun : runCalls ⟨eV, "", [], "", [], "", o⟩ (SCall.id v :: cs)
          = runCalls ⟨eV, "#" ++ v, [], "", [], "", 2⟩ cs := by
        simp [runCalls, Selector.step, Selector.id, Selector.validateOrder, hord]
      rw [hrun]
      obtain ⟨herr, hstr⟩ := ih ⟨eV, "#" ++ v, [], "", [], "", 2⟩
        ⟨fun h => absurd h (by simp), fun _ => rfl, fun _ => rfl, fun _ => rfl, fun _ => rfl⟩
        hrk2
        (by show countC SCall.isElement cs + occ eV ≤ 1; omega)
        (by show countC SCall.isId cs + occ ("#" ++ v) ≤ 1
            have := occ_le_one ("#" ++ v); omega)
        (by show countC SCall.isAttr cs + occ "" ≤ 1
            rw [occ_empty]; omega)
        (by show countC SCall.isPseudoElement cs + occ "" ≤ 1
            rw [occ_empty]; omega)
      refine ⟨herr, ?_⟩
      rw [hstr]
      simp [Selector.stringify, strJoin, SCall.fragment,
        String.append_empty, String.empty_append, String.append_assoc]
    | cls v =>
      simp only [List.map_cons, ranksFrom, SCall.rank, Bool.and_eq_true,
        decide_eq_true_eq] at hrk
      obtain ⟨hord, hrk2⟩ := hrk
      simp [countC, SCall.isElement, SCall.isId, SCall.isAttr,
        SCall.isPseudoElement] at hE hI hA hP
      have haV : aV = "" := h4 (by omega)
      have hpV : pV = [] := h5 (by omega)
      have hpeV : peV = "" := h6 (by omega)
      subst haV hpV hpeV
      have hrun : runCalls ⟨eV, iV, cV, "", [], "", o⟩ (SCall.cls v :: cs)
          = runCalls ⟨eV, iV, cV ++ ["." ++ v], "", [], "", 3⟩ cs := by
        simp [runCalls, Selector.step, Selector.cls, Selector.validateOrder, hord]
      rw [hrun]
      obtain ⟨herr, hstr⟩ := ih ⟨eV, iV, cV ++ ["." ++ v], "", [], "", 3⟩
        ⟨fun h => absurd h (by simp), fun h => absurd h (by simp),
          fun _ => rfl, fun _ => rfl, fun _ => rfl⟩
        hrk2
        (by show countC SCall.isElement cs + occ eV ≤ 1; omega)
        (by show countC SCall.isId cs + occ iV ≤ 1; omega)
        (by show countC SCall.isAttr cs + occ "" ≤ 1
            rw [occ_empty]; omega)
        (by show countC SCall.isPseudoElement cs + occ "" ≤ 1
            rw [occ_empty]; omega)
      refine ⟨herr, ?_⟩
      rw [hstr]
      simp [Selector.stringify, strJoin, SCall.fragment, strJoin_append,
        String.append_empty, String.empty_append, String.append_assoc]
    | attr v =>
      simp only [List.map_cons, ranksFrom, SCall.rank, Bool.and_eq_true,
        decide_eq_true_eq] at hrk
      obtain ⟨hord, hrk2⟩ := hrk
      simp [countC, SCall.isElement, SCall.isId, SCall.isAttr,
        SCall.isPseudoElement] at hE hI hA hP
      have haV : aV = "" := occ_eq_zero (by omega)
      have hpV : pV = [] := h5 (by omega)
      have hpeV : peV = "" := h6 (by omega)
      subst haV hpV hpeV
      have hrun : runCalls ⟨eV, iV, cV, "", [], "", o⟩ (SCall.attr v :: cs)
          = runCalls ⟨eV, iV, cV, "[" ++ v ++ "]", [], "", 4⟩ cs := by
        simp [runCalls, Selector.step, Selector.attr, Selector.validateOrder, hord]
      rw [hrun]
      obtain ⟨herr, hstr⟩ := ih ⟨eV, iV, cV, "[" ++ v ++ "]", [], "", 4⟩
        ⟨fun h => absurd h (by simp), fun h => absurd h (by simp),
          fun h => absurd h (by simp), fun _ => rfl, fun _ => rfl⟩
        hrk2
        (by show countC SCall.isElement cs + occ eV ≤ 1; omega)
        (by show countC SCall.isId cs + occ iV ≤ 1; omega)
        (by show countC SCall.isAttr cs + occ ("[" ++ v ++ "]") ≤ 1
            have := occ_le_one ("[" ++ v ++ "]"); omega)
        (by show countC SCall.isPseudoElement cs + occ "" ≤ 1
            rw [occ_empty]; omega)
      refine ⟨herr, ?_⟩
      rw [hstr]
      simp [Selector.stringify, strJoin, SCall.fragment,
        String.append_empty, String.empty_append, String.append_assoc]
    | pseudoClass v =>
      simp only [List.map_cons, ranksFrom, SCall.rank, Bool.and_eq_true,
        decide_eq_true_eq] at hrk
      obtain ⟨hord, hrk2⟩ := hrk
      simp [countC, SCall.isElement, SCall.isId, SCall.isAttr,
        SCall.isPseudoElement] at hE hI hA hP
      have hpeV : peV = "" := h6 (by omega)
      subst hpeV
      have hrun : runCalls ⟨eV, iV, cV, aV, pV, "", o⟩ (SCall.pseudoClass v :: cs)
          = runCalls ⟨eV, iV, cV, aV, pV ++ [":" ++ v], "", 5⟩ cs := by
        simp [runCalls, Selector.step, Selector.pseudoClass, Selector.validateOrder, hord]
      rw [hrun]
      obtain ⟨herr, hstr⟩ := ih ⟨eV, iV, cV, aV, pV ++ [":" ++ v], "", 5⟩
        ⟨fun h => absurd h (by simp), fun h => absurd h (by simp),
          fun h => absurd h (by simp), fun h => absurd h (by simp), fun _ => rfl⟩
        hrk2
        (by show countC SCall.isElement cs + occ eV ≤ 1; omega)
        (by show countC SCall.isId cs + occ iV ≤ 1; omega)
        (by show countC SCall.isAttr cs + occ aV ≤ 1; omega)
        (by show countC SCall.isPseudoElement cs + occ "" ≤ 1
            rw [occ_empty]; omega)
      refine ⟨herr, ?_⟩
      rw [hstr]
      simp [Selector.stringify, strJoin, SCall.fragment, strJoin_append,
        String.append_empty, String.empty_append, String.append_assoc]
    | pseudoElement v =>
      simp only [List.map_cons, ranksFrom, SCall.rank, Bool.and_eq_true,
        decide_eq_true_eq] at hrk
      obtain ⟨hord, hrk2⟩ := hrk
      simp [countC, SCall.isElement, SCall.isId, SCall.isAttr,
        SCall.isPseudoElement] at hE hI hA hP
      have hpeV : peV = "" := occ_eq_zero (by omega)
      subst hpeV
      have hrun : runCalls ⟨eV, iV, cV, aV, pV, "", o⟩ (SCall.pseudoElement v :: cs)
          = runCalls ⟨eV, iV, cV, aV, pV, "::" ++ v, 6⟩ cs := by
        simp [runCalls, Selector.step, Selector.pseudoElement, Selector.validateOrder, hord]
      rw [hrun]
      obtain ⟨herr, hstr⟩ := ih ⟨eV, iV, cV, aV, pV, "::" ++ v, 6⟩
        ⟨fun h => absurd h (by simp), fun h => absurd h (by simp),
          fun h => absurd h (by simp), fun h => absurd h (by simp),
          fun h => absurd h (by simp)⟩
        hrk2
        (by show countC SCall.isElement cs + occ eV ≤ 1; omega)
        (by show countC SCall.isId cs + occ iV ≤ 1; omega)
        (by show countC SCall.isAttr cs + occ aV ≤ 1; omega)
        (by show countC SCall.isPseudoElement cs + occ ("::" ++ v) ≤ 1
            have := occ_le_one ("::" ++ v); omega)
      refine ⟨herr, ?_⟩
      rw [hstr]
      simp [Selector.stringify, strJoin, SCall.fragment,
        String.append_empty, String.empty_append, String.append_assoc]


/-- The state of the receiver after a `Selector.stringify()` call,
paired with the returned string: the method body (lines 187-195) only reads
`this`'s fields into a local and returns it, assigning to no field, so the
receiver is returned unchanged. -/
def Selector.stringifyCall (s : Selector) : String × Selector :=
  (s.stringify, s)

/-! ## Heap model for independence of facade-created builders

Each facade entry point executes `new Selector()` and calls a method on the
fresh object, and every instance method of `Selector` mutates only `this`.
The arena model below makes that observable: a heap is the list of allocated
`Selector` objects, a facade call allocates a fresh cell at the end, and a
method call through a handle rewrites only that handle's cell. -/

/-- A facade fragment-appending call on a heap: allocate `new Selector()`,
run the method on it, return the new heap, the fresh handle and the thrown
error (if any). -/
def facadeAlloc (h : List Selector) (c : SCall) : List Selector × Nat × Option String :=
  (h ++ [(Selector.step Selector.new c).state], h.length, (Selector.step Selector.new c).err)

/-- An instance-method call through handle `i`: only cell `i` is rewritten. -/
def methodCall (h : List Selector) (i : Nat) (c : SCall) : List Selector × Option String :=
  match h[i]? with
  | some s => (h.set i (Selector.step s c).state, (Selector.step s c).err)
  | none => (h, none)

/-- Chain of repeated `attr` calls: each call overwrites `attrValue` and
leaves `order` at 4, so only the final value survives. -/
theorem runCalls_attr_chain : ∀ (vs : List String) (v : String) (s : Selector),
    s.order ≤ 4 →
    runCalls s ((vs ++ [v]).map SCall.attr)
      = ⟨none, { s with attrValue := "[" ++ v ++ "]", order := 4 }⟩ := by
  intro vs
  induction vs with
  | nil =>
    intro v s h
    simp [runCalls, Selector.step, Selector.attr, Selector.validateOrder, h]
  | cons w ws ih =>
    intro v s h
    have hstep : runCalls s (((w :: ws) ++ [v]).map SCall.attr)
        = runCalls { s with attrValue := "[" ++ w ++ "]", order := 4 } ((ws ++ [v]).map SCall.attr) := by
      simp [runCalls, Selector.step, Selector.attr, Selector.validateOrder, h]
    rw [hstep, ih v _ (by simp)]

/-! ## Claims -/

/-- C1, counterexample: the sequence `attr("a"); attr("b")` lies in the
claim's set of valid sequences (`attr` is allowed any number of times and
the ranks 4,4 are non-decreasing), and the chain runs without error, but
`stringify()` returns `"[b]"`, not the concatenation `"[a][b]"` of one
`[...]` fragment per `attr` call: the second call overwrote the first. -/
theorem selector_attr_attr_breaks_concat :
    ValidSeqC1 [SCall.attr "a", SCall.attr "b"] ∧
    (runCalls Selector.new [SCall.attr "a", SCall.attr "b"]).err = none ∧
    (runCalls Selector.new [SCall.attr "a", SCall.attr "b"]).state.stringify = "[b]" ∧
    (runCalls Selector.new [SCall.attr "a", SCall.attr "b"]).state.stringify
      ≠ strJoin ([SCall.attr "a", SCall.attr "b"].map SCall.fragment) :=
  ⟨by decide, by decide, by decide, by decide⟩

/-- C1 (amended): for every sequence of builder calls from
{element ≤ once, id ≤ once, class any number, pseudoClass any number,
pseudoElement ≤ once, and — as the counterexample forces — attr ≤ once}
whose ranks are non-decreasing, the chain runs without error and
`stringify()` returns the concatenation, in append order, of the fragments
rendered with their prefix symbols. -/
theorem selector_valid_chain_stringify_concat (cs : List SCall)
    (hvalid : ValidSeqC1 cs) (hattr : countC SCall.isAttr cs ≤ 1) :
    (runCalls Selector.new cs).err = none ∧
    (runCalls Selector.new cs).state.stringify = strJoin (cs.map SCall.fragment) := by
  obtain ⟨hrk, hE, hI, hP⟩ := hvalid
  have h := runCalls_concat cs Selector.new
    ⟨fun _ => rfl, fun _ => rfl, fun _ => rfl, fun _ => rfl, fun _ => rfl⟩
    hrk hE hI hattr hP
  refine ⟨h.1, ?_⟩
  rw [h.2]
  simp [Selector.stringify, Selector.new, strJoin, String.empty_append]

/-- Witness for C1 (amended) at a concrete valid sequence. -/
theorem selector_valid_chain_stringify_concat_witness :
    ValidSeqC1 [SCall.element "a", SCall.id "b", SCall.cls "c", SCall.cls "d",
      SCall.attr "e", SCall.pseudoClass "f", SCall.pseudoElement "g"] ∧
    countC SCall.isAttr [SCall.element "a", SCall.id "b", SCall.cls "c", SCall.cls "d",
      SCall.attr "e", SCall.pseudoClass "f", SCall.pseudoElement "g"] ≤ 1 ∧
    ((runCalls Selector.new [SCall.element "a", SCall.id "b", SCall.cls "c", SCall.cls "d",
        SCall.attr "e", SCall.pseudoClass "f", SCall.pseudoElement "g"]).err = none ∧
     (runCalls Selector.new [SCall.element "a", SCall.id "b", SCall.cls "c", SCall.cls "d",
        SCall.attr "e", SCall.pseudoClass "f", SCall.pseudoElement "g"]).state.stringify
      = strJoin ([SCall.element "a", SCall.id "b", SCall.cls "c", SCall.cls "d",
        SCall.attr "e", SCall.pseudoClass "f", SCall.pseudoElement "g"].map SCall.fragment)) :=
  ⟨by decide, by decide,
   selector_valid_chain_stringify_concat _ (by decide) (by decide)⟩

/-- C2: the claim fails on the `CssSelectorBuilder` implementation.  Its
`validateOrder` counts the fragments already stored *before* the new one is
pushed and only rejects counts `> 1`, so the duplicate `element`, `id` or
`pseudoElement` call itself succeeds and stores the duplicate fragment:
`element("div").element("span")` returns normally with both fragments, and
`stringify()` yields `"divspan"`.  The error the claim requires only
surfaces on the *next* append call (last conjunct).  (In the `Selector`
implementation the duplicate call does throw at once.) -/
theorem cssB_second_element_not_rejected :
    (runCallsB CssB.new [SCall.element "div", SCall.element "span"]).err = none ∧
    (runCallsB CssB.new [SCall.element "div", SCall.element "span"]).state
      = ⟨["div", "span"]⟩ ∧
    (CssB.stringify ⟨["div", "span"]⟩).1 = "divspan" ∧
    (runCallsB CssB.new [SCall.id "x", SCall.id "y"]).err = none ∧
    (runCallsB CssB.new [SCall.pseudoElement "x", SCall.pseudoElement "y"]).err = none ∧
    (runCallsB CssB.new [SCall.element "div", SCall.element "span", SCall.cls "c"]).err
      = some cssDupMsg :=
  ⟨by decide, by decide, by decide, by decide, by decide, by decide⟩

/-- C3: the claim fails on the `CssSelectorBuilder` implementation, in both
directions.  (1) `attr("x").class("c")` appends a class fragment (rank 3)
after an attribute fragment (rank 4) without any error, because its order
check only inspects whether the *last* stored fragment starts with `#` or
`::`.  (2) `element("div").class("a").class("b")` — an equal-rank repeatable
append — throws, because the prefix classifier counts both `"div"` and
`".a"` as element fragments.  (3) Even the example from the file's own doc
comment, `id("main").class("container")`, throws an order error.  (The
`Selector` implementation behaves as the claim states.) -/
theorem cssB_order_checks_misfire :
    (runCallsB CssB.new [SCall.attr "x", SCall.cls "c"]).err = none ∧
    (runCallsB CssB.new [SCall.attr "x", SCall.cls "c"]).state = ⟨["[x]", ".c"]⟩ ∧
    (runCallsB CssB.new [SCall.element "div", SCall.cls "a", SCall.cls "b"]).err
      = some cssDupMsg ∧
    (runCallsB CssB.new [SCall.id "main", SCall.cls "container"]).err = some orderMsg :=
  ⟨by decide, by decide, by decide, by decide⟩

/-- C4, counterexample: `Selector.stringify` (lines 187-195) performs no
reset — it only reads the fields — so after building `#main` the first
`stringify()` call returns `"#main"` and a second call on the resulting
receiver state returns `"#main"` again, not the empty string the claim
requires. -/
theorem selector_stringify_not_destructive :
    (Selector.stringifyCall (runCalls Selector.new [SCall.id "main"]).state).1 = "#main" ∧
    (Selector.stringifyCall
      (Selector.stringifyCall (runCalls Selector.new [SCall.id "main"]).state).2).1
      = "#main" ∧
    ("#main" : String) ≠ "" :=
  ⟨by decide, by decide, by decide⟩

/-- C4 (amended): the destructive-read contract holds for the
`CssSelectorBuilder` implementation — `stringify()` returns the join of the
stored fragments and clears them, so a second call with no intervening
appends returns the empty string — while `Selector.stringify` is
non-destructive and a second call returns the same string again. -/
theorem cssB_stringify_destructive (s : CssB) :
    (CssB.stringify s).1 = strJoin s.selectors ∧
    (CssB.stringify (CssB.stringify s).2).1 = "" ∧
    (∀ t : Selector, (Selector.stringifyCall t).2 = t) :=
  ⟨rfl, rfl, fun _ => rfl⟩

/-- C5: on both implementations, `combine(left, c, right)` appends exactly
one fragment, equal to `left.stringify() ++ " " ++ c ++ " " ++
right.stringify()`; in particular `combine(element("div").id("main"), "+",
element("span"))` stringifies to `"div#main + span"`, and the nested
combine of `element("table")`, `"~"`, `element("tr")`, then `" "` with
`element("td")` gives `"table ~ tr   td"` with the accumulated three-space
gap. -/
theorem combine_appends_single_fragment :
    (∀ (l r : Selector) (c : String),
      (cssSelectorBuilder.combine l c r).stringify
        = l.stringify ++ " " ++ c ++ " " ++ r.stringify) ∧
    (∀ (l r : CssB) (c : String),
      (CssB.stringify (cssSelectorBuilderB.combine l c r)).1
        = (CssB.stringify l).1 ++ " " ++ c ++ " " ++ (CssB.stringify r).1) ∧
    (cssSelectorBuilder.combine
        (runCalls Selector.new [SCall.element "div", SCall.id "main"]).state
        "+" (cssSelectorBuilder.element "span").state).stringify = "div#main + span" ∧
    (cssSelectorBuilder.combine
        (cssSelectorBuilder.combine (cssSelectorBuilder.element "table").state "~"
          (cssSelectorBuilder.element "tr").state)
        " " (cssSelectorBuilder.element "td").state).stringify = "table ~ tr   td" ∧
    (CssB.stringify (cssSelectorBuilderB.combine
        (runCallsB CssB.new [SCall.element "div", SCall.id "main"]).state
        "+" (cssSelectorBuilderB.element "span").state)).1 = "div#main + span" ∧
    (CssB.stringify (cssSelectorBuilderB.combine
        (cssSelectorBuilderB.combine (cssSelectorBuilderB.element "table").state "~"
          (cssSelectorBuilderB.element "tr").state)
        " " (cssSelectorBuilderB.element "td").state)).1 = "table ~ tr   td" := by
  refine ⟨?_, ?_, by decide, by decide, by decide, by decide⟩
  · intro l r c
    simp [cssSelectorBuilder.combine, Selector.combine, Selector.new, Selector.stringify,
      strJoin, String.append_empty, String.empty_append, String.append_assoc]
  · intro l r c
    simp [cssSelectorBuilderB.combine, CssB.combine, CssB.new, CssB.stringify,
      strJoin, String.append_empty, String.empty_append, String.append_assoc]

/-- C6, counterexample: in the `Selector` implementation the fragment write
precedes the order check, so a `class` call that throws the order error has
already pushed its fragment: after `attr("a")`, the failing `class("b")`
leaves the builder with `classValues = [".b"]` — not the state it had
before the call. -/
theorem selector_failed_class_mutates_state :
    (Selector.cls (runCalls Selector.new [SCall.attr "a"]).state "b").err = some orderMsg ∧
    (Selector.cls (runCalls Selector.new [SCall.attr "a"]).state "b").state
      ≠ (runCalls Selector.new [SCall.attr "a"]).state ∧
    (Selector.cls (runCalls Selector.new [SCall.attr "a"]).state "b").state.classValues
      = [".b"] :=
  ⟨by decide, by decide, by decide⟩

/-- C6 (amended): in the `CssSelectorBuilder` implementation every append
call validates before pushing, so on failure the state is exactly what it
was before the call; in the `Selector` implementation only the duplicate
checks of `element`/`id`/`pseudoElement` fire before any mutation (the
order check fires after the fragment write — see the counterexample). -/
theorem cssB_no_mutation_on_failure :
    (∀ (s : CssB) (c : SCall),
      (CssB.step s c).err.isSome → (CssB.step s c).state = s) ∧
    (∀ (s : Selector) (v : String), s.elementValue ≠ "" →
      Selector.element s v = ⟨some selectorDupMsg, s⟩) ∧
    (∀ (s : Selector) (v : String), s.idValue ≠ "" →
      Selector.id s v = ⟨some selectorDupMsg, s⟩) ∧
    (∀ (s : Selector) (v : String), s.pseudoElementValue ≠ "" →
      Selector.pseudoElement s v = ⟨some selectorDupMsgPE, s⟩) := by
  refine ⟨?_, ?_, ?_, ?_⟩
  · intro s c h
    cases c with
    | element v =>
      revert h
      simp only [CssB.step, CssB.element]
      rcases s.validateOrder 1 with _ | e <;> simp
    | id v =>
      revert h
      simp only [CssB.step, CssB.id]
      rcases s.validateOrder 2 with _ | e <;> simp
    | cls v =>
      revert h
      simp only [CssB.step, CssB.cls]
      rcases s.validateOrder 3 with _ | e <;> simp
    | attr v =>
      revert h
      simp only [CssB.step, CssB.attr]
      rcases s.validateOrder 4 with _ | e <;> simp
    | pseudoClass v =>
      revert h
      simp only [CssB.step, CssB.pseudoClass]
      rcases s.validateOrder 5 with _ | e <;> simp
    | pseudoElement v =>
      revert h
      simp only [CssB.step, CssB.pseudoElement]
      rcases s.validateOrder 6 with _ | e <;> simp
  · intro s v h
    simp [Selector.element, h]
  · intro s v h
    simp [Selector.id, h]
  · intro s v h
    simp [Selector.pseudoElement, h]

/-- Witness for C6 (amended): a `class` call on a `CssSelectorBuilder`
whose last fragment is `#a` throws and leaves the state unchanged, and each
`Selector` duplicate guard throws with the receiver unchanged. -/
theorem cssB_no_mutation_on_failure_witness :
    ((CssB.step ⟨["#a"]⟩ (SCall.cls "x")).err.isSome = true ∧
     (CssB.step ⟨["#a"]⟩ (SCall.cls "x")).state = ⟨["#a"]⟩) ∧
    ((⟨"a", "", [], "", [], "", 1⟩ : Selector).elementValue ≠ "" ∧
     Selector.element ⟨"a", "", [], "", [], "", 1⟩ "z"
      = ⟨some selectorDupMsg, ⟨"a", "", [], "", [], "", 1⟩⟩) ∧
    ((⟨"", "#a", [], "", [], "", 2⟩ : Selector).idValue ≠ "" ∧
     Selector.id ⟨"", "#a", [], "", [], "", 2⟩ "z"
      = ⟨some selectorDupMsg, ⟨"", "#a", [], "", [], "", 2⟩⟩) ∧
    ((⟨"", "", [], "", [], "::b", 6⟩ : Selector).pseudoElementValue ≠ "" ∧
     Selector.pseudoElement ⟨"", "", [], "", [], "::b", 6⟩ "z"
      = ⟨some selectorDupMsgPE, ⟨"", "", [], "", [], "::b", 6⟩⟩) :=
  ⟨⟨by decide, cssB_no_mutation_on_failure.1 ⟨["#a"]⟩ (SCall.cls "x") (by decide)⟩,
   ⟨by decide, cssB_no_mutation_on_failure.2.1 _ "z" (by decide)⟩,
   ⟨by decide, cssB_no_mutation_on_failure.2.2.1 _ "z" (by decide)⟩,
   ⟨by decide, cssB_no_mutation_on_failure.2.2.2 _ "z" (by decide)⟩⟩

/-- C7: the claim fails on the code.  In the `CssSelectorBuilder`
implementation a `combine`-produced fragment whose inner left selector
begins with `#` (here `"#main + span"`) is classified by the prefix scanner
as an id fragment, so a following `class` call — which the ordering rule
would allow — throws the order error.  In the `Selector` implementation
`combine` stores its fragment in `elementValue`, so a following `element`
call throws the duplicate error even though no element fragment was ever
appended. -/
theorem combine_fragment_triggers_checks :
    (cssSelectorBuilderB.combine (cssSelectorBuilderB.id "main").state "+"
        (cssSelectorBuilderB.element "span").state).selectors = ["#main + span"] ∧
    (CssB.cls (cssSelectorBuilderB.combine (cssSelectorBuilderB.id "main").state "+"
        (cssSelectorBuilderB.element "span").state) "x").err = some orderMsg ∧
    (Selector.element (cssSelectorBuilder.combine (cssSelectorBuilder.element "a").state "+"
        (cssSelectorBuilder.element "b").state) "div").err = some selectorDupMsg :=
  ⟨by decide, by decide, by decide⟩

/-- C8: every facade entry point of both `cssSelectorBuilder` objects
constructs a new builder and delegates to the corresponding instance method
(the fourteen delegation equations), and in the heap model a facade call
allocates a fresh handle and leaves every existing builder's cell
untouched, while an instance-method call through one handle leaves every
other handle's cell untouched — so independently started selector
expressions never share mutable state. -/
theorem facade_fresh_builder_independence :
    (∀ (h : List Selector) (c : SCall),
      (facadeAlloc h c).2.1 = h.length ∧
      ∀ j, j < h.length → (facadeAlloc h c).1[j]? = h[j]?) ∧
    (∀ (h : List Selector) (i : Nat) (c : SCall) (j : Nat), j ≠ i →
      (methodCall h i c).1[j]? = h[j]?) ∧
    (∀ v, cssSelectorBuilder.element v = Selector.new.element v) ∧
    (∀ v, cssSelectorBuilder.id v = Selector.new.id v) ∧
    (∀ v, cssSelectorBuilder.cls v = Selector.new.cls v) ∧
    (∀ v, cssSelectorBuilder.attr v = Selector.new.attr v) ∧
    (∀ v, cssSelectorBuilder.pseudoClass v = Selector.new.pseudoClass v) ∧
    (∀ v, cssSelectorBuilder.pseudoElement v = Selector.new.pseudoElement v) ∧
    (∀ s1 c s2, cssSelectorBuilder.combine s1 c s2 = Selector.new.combine s1 c s2) ∧
    (∀ v, cssSelectorBuilderB.element v = CssB.new.element v) ∧
    (∀ v, cssSelectorBuilderB.id v = CssB.new.id v) ∧
    (∀ v, cssSelectorBuilderB.cls v = CssB.new.cls v) ∧
    (∀ v, cssSelectorBuilderB.attr v = CssB.new.attr v) ∧
    (∀ v, cssSelectorBuilderB.pseudoClass v = CssB.new.pseudoClass v) ∧
    (∀ v, cssSelectorBuilderB.pseudoElement v = CssB.new.pseudoElement v) ∧
    (∀ s1 c s2, cssSelectorBuilderB.combine s1 c s2 = CssB.new.combine s1 c s2) := by
  refine ⟨?_, ?_, fun _ => rfl, fun _ => rfl, fun _ => rfl, fun _ => rfl, fun _ => rfl,
    fun _ => rfl, fun _ _ _ => rfl, fun _ => rfl, fun _ => rfl, fun _ => rfl, fun _ => rfl,
    fun _ => rfl, fun _ => rfl, fun _ _ _ => rfl⟩
  · intro h c
    refine ⟨rfl, fun j hj => ?_⟩
    show (h ++ [(Selector.step Selector.new c).state])[j]? = h[j]?
    rw [List.getElem?_append, if_pos hj]
  · intro h i c j hj
    unfold methodCall
    rcases hcell : h[i]? with _ | s
    · rfl
    · show (h.set i (Selector.step s c).state)[j]? = h[j]?
      rw [List.getElem?_set_ne (fun hij => hj hij.symm)]

/-- Witness for C8: allocation and a method call through one handle leave
another handle's cell unchanged on a concrete two-builder heap. -/
theorem facade_fresh_builder_independence_witness :
    ((0 : Nat) < [Selector.new].length ∧
     (facadeAlloc [Selector.new] (SCall.element "a")).1[0]? = [Selector.new][0]?) ∧
    ((0 : Nat) ≠ 1 ∧
     (methodCall [Selector.new, Selector.new] 1 (SCall.cls "c")).1[0]?
       = [Selector.new, Selector.new][0]?) :=
  ⟨⟨by decide,
     (facade_fresh_builder_independence.1 [Selector.new] (SCall.element "a")).2 0 (by decide)⟩,
   ⟨by decide,
     facade_fresh_builder_independence.2.1 [Selector.new, Selector.new] 1 (SCall.cls "c") 0
       (by decide)⟩⟩

/-- C9: the duplicate guards of `Selector.element`, `Selector.id` and
`Selector.pseudoElement` test JS truthiness of the *stored* fragment
(`selectorDupMsg` is thrown exactly when the stored string is nonempty), so
an element fragment stored with the empty-string name does not count as
present: `element("")` followed by `element("div")` on the same builder
runs without error and stringifies to `"div"`. -/
theorem selector_empty_element_not_counted :
    (∀ (s : Selector) (v : String),
      ((Selector.element s v).err = some selectorDupMsg ↔ s.elementValue ≠ "")) ∧
    (∀ (s : Selector) (v : String),
      ((Selector.id s v).err = some selectorDupMsg ↔ s.idValue ≠ "")) ∧
    (∀ (s : Selector) (v : String),
      ((Selector.pseudoElement s v).err = some selectorDupMsgPE ↔ s.pseudoElementValue ≠ "")) ∧
    (runCalls Selector.new [SCall.element "", SCall.element "div"]).err = none ∧
    (runCalls Selector.new [SCall.element "", SCall.element "div"]).state.stringify
      = "div" := by
  refine ⟨?_, ?_, ?_, by decide, by decide⟩
  · intro s v
    by_cases he : s.elementValue = ""
    · simp only [Selector.element, he, ne_eq, not_true_eq_false, if_neg, not_false_iff,
        iff_false, Selector.validateOrder]
      split <;> simp [orderMsg, selectorDupMsg, selectorDupMsgPE]
    · simp [Selector.element, he]
  · intro s v
    by_cases he : s.idValue = ""
    · simp only [Selector.id, he, ne_eq, not_true_eq_false, if_neg, not_false_iff,
        iff_false, Selector.validateOrder]
      split <;> simp [orderMsg, selectorDupMsg, selectorDupMsgPE]
    · simp [Selector.id, he]
  · intro s v
    by_cases he : s.pseudoElementValue = ""
    · simp only [Selector.pseudoElement, he, ne_eq, not_true_eq_false, if_neg, not_false_iff,
        iff_false, Selector.validateOrder]
      split <;> simp [orderMsg, selectorDupMsg, selectorDupMsgPE]
    · simp [Selector.pseudoElement, he]

/-- C10: in the `Selector` implementation `attr(v)` overwrites the stored
attribute fragment: whatever the previous state, after the call
`attrValue = "[v]"`; after any nonempty chain of `attr` calls from a fresh
builder, `stringify()` is exactly the one `[...]` fragment of the last
call; and `class`/`pseudoClass` calls each append a new fragment to their
lists instead. -/
theorem selector_attr_overwrites :
    (∀ (s : Selector) (v : String),
      (Selector.attr s v).state.attrValue = "[" ++ v ++ "]") ∧
    (∀ (vs : List String) (v : String),
      (runCalls Selector.new ((vs ++ [v]).map SCall.attr)).err = none ∧
      (runCalls Selector.new ((vs ++ [v]).map SCall.attr)).state.stringify
        = "[" ++ v ++ "]") ∧
    (∀ (s : Selector) (v : String),
      (Selector.cls s v).state.classValues = s.classValues ++ ["." ++ v]) ∧
    (∀ (s : Selector) (v : String),
      (Selector.pseudoClass s v).state.pseudoClassValues
        = s.pseudoClassValues ++ [":" ++ v]) := by
  refine ⟨?_, ?_, ?_, ?_⟩
  · intro s v
    unfold Selector.attr Selector.validateOrder
    split <;> rfl
  · intro vs v
    rw [runCalls_attr_chain vs v Selector.new (by simp [Selector.new])]
    refine ⟨rfl, ?_⟩
    simp [Selector.new, Selector.stringify, strJoin,
      String.append_empty, String.empty_append]
  · intro s v
    unfold Selector.cls Selector.validateOrder
    split <;> rfl
  · intro s v
    unfold Selector.pseudoClass Selector.validateOrder
    split <;> rfl
